import Mathlib

/-!
Shallow embedding of src/yieldbasis_historical_yield.py.

The script walks backward through chain history for each configured
depositor, sampling share balances and redemption values at daily block
strides, and prints per-depositor deltas plus a realized annualized
return.  Remote JSON-RPC calls are modelled by oracles: a function from
the attempt number (1-based, as in the Python loops) to the response of
that attempt.  Python exceptions raised by web3 calls are modelled by
RpcError, recording exactly the attributes the script inspects: whether
the message contains the rate-limit marker, whether it contains the
decode-failure marker, and the optional numeric error code attribute.
Python float arithmetic on displayed quantities is modelled by exact
rationals; Python division (which raises ZeroDivisionError on a zero
divisor) is modelled by pyDiv returning Except.
-/

/-- Model of an exception raised by a web3 call, carrying the attributes
the script inspects. tooManyRequests: the string form contains the text
Too Many Requests. decodeFail: the string form contains the text Could
not decode contract function. code: the value of the code attribute when
the exception has one. -/
structure RpcError where
  tooManyRequests : Bool
  decodeFail : Bool
  code : Option Int
deriving DecidableEq

/-- Outcome of one remote call attempt: a value, or a raised exception. -/
inductive RpcResp (α : Type) where
  | ok (v : α)
  | err (e : RpcError)
deriving DecidableEq

/-- QUERY_COOLDOWN = 0.5 seconds (module constant of the script). -/
def QUERY_COOLDOWN : ℚ := 1/2

/-- MAX_DAYS_TO_PARSE = 0 (module constant of the script; 0 disables the
lookback limit). -/
def MAX_DAYS_TO_PARSE : Int := 0

/-- blocks_per_day = 24*60*60 // 12 (module constant of the script). -/
def blocks_per_day : ℕ := 24*60*60 / 12

/-- Model of json.loads applied to an exception object: the argument is
not a str, bytes or bytearray, so json.loads raises TypeError. -/
def json_loads_exc (_e : RpcError) : Except Unit Unit :=
  Except.error ()

/-- Model of subscripting an exception object with a string key: an
exception instance is not subscriptable, so this raises TypeError. -/
def subscript_code (_e : RpcError) : Except Unit Int :=
  Except.error ()

/-- Embedding of get_web3_error_code: return the code attribute if the
error has one; otherwise try json.loads(error) followed by a subscript,
and return None from the bare except when that raises. -/
def get_web3_error_code (e : RpcError) : Option Int :=
  match e.code with
  | some c => some c
  | none =>
    match json_loads_exc e with
    | Except.error _ => none
    | Except.ok _ =>
      match subscript_code e with
      | Except.ok c => some c
      | Except.error _ => none

/-- Loop body of get_block_timestamp: attempts numbered from 1; fuel is
the number of loop iterations remaining (3 at the top-level call).
Returns the result together with the list of sleep durations performed,
in order. On success return the timestamp; on a rate-limited attempt
sleep attempt*30 + QUERY_COOLDOWN and retry; on any other error return 0
at once; after the loop return 0. -/
def get_block_timestamp_go (resps : ℕ → RpcResp Int) : ℕ → ℕ → Int × List ℚ
  | _, 0 => (0, [])
  | attempt, fuel+1 =>
    match resps attempt with
    | RpcResp.ok v => (v, [])
    | RpcResp.err e =>
      if e.tooManyRequests then
        let p := get_block_timestamp_go resps (attempt+1) fuel
        (p.1, ((attempt : ℚ)*30 + QUERY_COOLDOWN) :: p.2)
      else
        (0, [])

/-- Embedding of get_block_timestamp: for attempt in range(1, 4). -/
def get_block_timestamp (resps : ℕ → RpcResp Int) : Int × List ℚ :=
  get_block_timestamp_go resps 1 3

/-- Shared loop body of get_shares_balance and get_withdraw_amount (the
two source functions differ only in which remote contract method they
invoke, which the response oracle abstracts). On success return the
value; on a rate-limited attempt sleep attempt*30 + QUERY_COOLDOWN and
retry; on a decode failure return 0 at once; otherwise, if the web3
error code is -32000 or -32603 return the no-data sentinel -1 at once,
else fall through to the next attempt; after the loop return 0. -/
def contract_call_go (resps : ℕ → RpcResp Int) : ℕ → ℕ → Int × List ℚ
  | _, 0 => (0, [])
  | attempt, fuel+1 =>
    match resps attempt with
    | RpcResp.ok v => (v, [])
    | RpcResp.err e =>
      if e.tooManyRequests then
        let p := contract_call_go resps (attempt+1) fuel
        (p.1, ((attempt : ℚ)*30 + QUERY_COOLDOWN) :: p.2)
      else if e.decodeFail then
        (0, [])
      else
        match get_web3_error_code e with
        | some c =>
          if c = -32000 ∨ c = -32603 then (-1, [])
          else contract_call_go resps (attempt+1) fuel
        | none => contract_call_go resps (attempt+1) fuel

/-- Embedding of get_shares_balance: for attempt in range(1, 4). -/
def get_shares_balance (resps : ℕ → RpcResp Int) : Int × List ℚ :=
  contract_call_go resps 1 3

/-- Embedding of get_withdraw_amount: for attempt in range(1, 4). -/
def get_withdraw_amount (resps : ℕ → RpcResp Int) : Int × List ℚ :=
  contract_call_go resps 1 3

/-- Model of a chain endpoint as seen through the three remote reads:
for each block number, the per-attempt responses of the block-timestamp
query, the balanceOf query, and (given the shares argument passed) the
preview_withdraw query. -/
structure Chain where
  tsResp : ℕ → ℕ → RpcResp Int
  sharesResp : ℕ → ℕ → RpcResp Int
  withdrawResp : ℕ → Int → ℕ → RpcResp Int

/-- Per-depositor accumulator of the main loop: current_value (set by
the first emitted sample, the most recent block), and the value and
block timestamp of the oldest sample emitted so far. -/
structure WalkState where
  current_value : Int
  oldest_parsed_value : Int
  oldest_parsed_block_timestamp : Int
deriving DecidableEq

/-- A line printed inside the per-depositor walk: either a sample line
(raw integer shares balance and withdraw amount, plus the four displayed
quantities, which the script computes by float division), or the
provider-has-no-data note. -/
inductive Ev where
  | sample (block : ℕ) (block_timestamp : Int)
      (shares_balance withdraw_amount : Int)
      (shares_balance_f withdraw_amount_f diff_current_f diff_deposited_f : ℚ)
  | noData (block : ℕ)
deriving DecidableEq

/-- Whether an event is a sample line. -/
def Ev.isSample : Ev → Bool
  | Ev.sample .. => true
  | _ => false

/-- Raw withdraw amount of a sample event (0 for a no-data note). -/
def Ev.wa : Ev → Int
  | Ev.sample _ _ _ w _ _ _ _ => w
  | _ => 0

/-- Raw shares balance of a sample event (0 for a no-data note). -/
def Ev.sb : Ev → Int
  | Ev.sample _ _ s _ _ _ _ _ => s
  | _ => 0

/-- Displayed shares balance of a sample event. -/
def Ev.sbF : Ev → ℚ
  | Ev.sample _ _ _ _ f _ _ _ => f
  | _ => 0

/-- Displayed withdraw amount of a sample event. -/
def Ev.waF : Ev → ℚ
  | Ev.sample _ _ _ _ _ f _ _ => f
  | _ => 0

/-- Displayed delta vs the current value of a sample event. -/
def Ev.diffCur : Ev → ℚ
  | Ev.sample _ _ _ _ _ _ d _ => d
  | _ => 0

/-- Displayed delta vs the deposited amount of a sample event. -/
def Ev.diffDep : Ev → ℚ
  | Ev.sample _ _ _ _ _ _ _ d => d
  | _ => 0

/-- The raw (divisor-free) content of an event: the constructor tag and
everything except the four displayed quantities. -/
def Ev.raw : Ev → Bool × ℕ × Int × Int × Int
  | Ev.sample b ts s w _ _ _ _ => (true, b, ts, s, w)
  | Ev.noData b => (false, b, 0, 0, 0)

/-- Whether an event is the no-data note. -/
def Ev.isNoData : Ev → Bool
  | Ev.noData _ => true
  | _ => false

/-- Embedding of the per-depositor block loop,
for block_number in range(current_block, 0, -blocks_per_day):
fetch the block timestamp, then the shares balance (stopping on a
non-positive result, with a no-data note when it is the -1 sentinel),
then the withdraw amount (same stopping rule), then emit a sample line
with the displayed quantities and update the accumulator.  fuel bounds
the number of loop iterations; the block number decreases by
blocks_per_day ≥ 1 each iteration, so the bound passed by walkFrom
always suffices and the fuel-exhausted branch is never reached from the
top level.  Returns the emitted events in order and the final
accumulator. -/
def walkLoop (ch : Chain) (deposited_amount : Int) (divisor : ℚ)
    (current_block_timestamp : Int) : ℕ → ℕ → WalkState → List Ev × WalkState
  | 0, _, s => ([], s)
  | _+1, 0, s => ([], s)
  | fuel+1, b, s =>
    let block_timestamp := (get_block_timestamp (ch.tsResp b)).1
    if MAX_DAYS_TO_PARSE > 0 ∧
        current_block_timestamp - block_timestamp ≥
          (MAX_DAYS_TO_PARSE + 1) * (24*60*60) + 1000 then
      ([], s)
    else
      let shares_balance := (get_shares_balance (ch.sharesResp b)).1
      if shares_balance ≤ 0 then
        ((if shares_balance = -1 then [Ev.noData b] else []), s)
      else
        let withdraw_amount := (get_withdraw_amount (ch.withdrawResp b shares_balance)).1
        if withdraw_amount ≤ 0 then
          ((if withdraw_amount = -1 then [Ev.noData b] else []), s)
        else
          let shares_balance_f : ℚ := (shares_balance : ℚ) / (10^18 : ℚ)
          let withdraw_amount_f : ℚ := (withdraw_amount : ℚ) / divisor
          let diff_deposited_f : ℚ := ((withdraw_amount - deposited_amount : Int) : ℚ) / divisor
          let cv : Int := if s.current_value = 0 then withdraw_amount else s.current_value
          let diff_current_f : ℚ :=
            if s.current_value = 0 then 0
            else ((withdraw_amount - s.current_value : Int) : ℚ) / divisor
          let ev := Ev.sample b block_timestamp shares_balance withdraw_amount
            shares_balance_f withdraw_amount_f diff_current_f diff_deposited_f
          let rest := walkLoop ch deposited_amount divisor current_block_timestamp
            fuel (b - blocks_per_day) ⟨cv, withdraw_amount, block_timestamp⟩
          (ev :: rest.1, rest.2)

/-- The per-depositor walk from the chain head: initial accumulator is
all zeroes; the fuel bound current_block / blocks_per_day + 2 covers
every iteration of range(current_block, 0, -blocks_per_day). -/
def walkFrom (ch : Chain) (deposited_amount : Int) (divisor : ℚ)
    (current_block_timestamp : Int) (current_block : ℕ) : List Ev × WalkState :=
  walkLoop ch deposited_amount divisor current_block_timestamp
    (current_block / blocks_per_day + 2) current_block ⟨0, 0, 0⟩

/-- Python division: raises ZeroDivisionError when the divisor is zero,
otherwise yields the exact quotient. -/
def pyDiv (a b : ℚ) : Except Unit ℚ :=
  if b = 0 then Except.error () else Except.ok (a / b)

/-- Content of the final gained ... in ... days for APR line: the raw
gain, the displayed gain, the elapsed days, and the annualized rate. -/
structure Report where
  parsed_gain : Int
  parsed_gain_f : ℚ
  parsed_days : ℚ
  parsed_apr : ℚ
deriving DecidableEq

/-- Embedding of the post-walk report: guarded by
oldest_parsed_value > 0 and oldest_parsed_block_timestamp > 0 (none when
the guard fails, so no division is evaluated); inside the guard the
divisions follow the source order and raise ZeroDivisionError on a zero
divisor (parsed_days = 0 in particular). -/
def computeReport (divisor : ℚ) (current_block_timestamp : Int)
    (s : WalkState) : Option (Except Unit Report) :=
  if s.oldest_parsed_value > 0 ∧ s.oldest_parsed_block_timestamp > 0 then
    some (do
      let parsed_days ← pyDiv
        ((current_block_timestamp - s.oldest_parsed_block_timestamp : Int) : ℚ) (24*60*60)
      let parsed_gain : Int := s.current_value - s.oldest_parsed_value
      let parsed_gain_f ← pyDiv (parsed_gain : ℚ) divisor
      let q1 ← pyDiv (parsed_gain : ℚ) (s.oldest_parsed_value : ℚ)
      let q2 ← pyDiv q1 parsed_days
      Except.ok ⟨parsed_gain, parsed_gain_f, parsed_days, q2 * 365⟩)
  else
    none

/-- One depositor end to end: the walk followed by the report
computation. -/
def runDepositor (ch : Chain) (deposited_amount : Int) (divisor : ℚ)
    (current_block : ℕ) (current_block_timestamp : Int) :
    List Ev × Option (Except Unit Report) :=
  let w := walkFrom ch deposited_amount divisor current_block_timestamp current_block
  (w.1, computeReport divisor current_block_timestamp w.2)

/-- Test fixture: a response oracle that is rate-limited on attempts 1
and 2 and succeeds with value 7 on attempt 3. -/
def respsRateLimited : ℕ → RpcResp Int :=
  fun n => if n = 3 then RpcResp.ok 7 else RpcResp.err ⟨true, false, none⟩

/-- Test fixture: a response oracle that always reports pruned
historical state (error code -32000, neither rate-limited nor a decode
failure). -/
def respsPruned : ℕ → RpcResp Int :=
  fun _ => RpcResp.err ⟨false, false, some (-32000)⟩

/-- Test fixture: a response oracle that always fails to decode the
contract function result. -/
def respsDecodeFail : ℕ → RpcResp Int :=
  fun _ => RpcResp.err ⟨false, true, none⟩

/-- Test fixture: a chain whose head is block 21600 and that yields
three successful samples at blocks 21600, 14400 and 7200, with
timestamps T, T-S, T-2S, shares balance 1 and withdraw amounts 100, 90
and 80. -/
def chain3 (T S : Int) : Chain where
  tsResp := fun b _ =>
    if b = 21600 then RpcResp.ok T
    else if b = 14400 then RpcResp.ok (T - S)
    else RpcResp.ok (T - 2*S)
  sharesResp := fun _ _ => RpcResp.ok 1
  withdrawResp := fun b _ _ =>
    if b = 21600 then RpcResp.ok 100
    else if b = 14400 then RpcResp.ok 90
    else RpcResp.ok 80

/-- Test fixture: a chain where every block-timestamp query fails with a
plain (non-rate-limit) error, so get_block_timestamp returns 0, while
the balance and withdraw queries succeed with 5 shares worth 50. -/
def chainTsFail : Chain where
  tsResp := fun _ _ => RpcResp.err ⟨false, false, none⟩
  sharesResp := fun _ _ => RpcResp.ok 5
  withdrawResp := fun _ _ _ => RpcResp.ok 50

/-- Test fixture: a chain answering timestamp 9, 5 shares worth 50 at
every block. -/
def chainGood : Chain where
  tsResp := fun _ _ => RpcResp.ok 9
  sharesResp := fun _ _ => RpcResp.ok 5
  withdrawResp := fun _ _ _ => RpcResp.ok 50

/-- Test fixture: a chain whose balance query reports pruned historical
state at every block. -/
def chainPruned : Chain where
  tsResp := fun _ _ => RpcResp.ok 9
  sharesResp := fun _ _ => RpcResp.err ⟨false, false, some (-32000)⟩
  withdrawResp := fun _ _ _ => RpcResp.ok 50

/-- Test fixture: a chain whose balance query returns a legitimate zero
balance at every block. -/
def chainZeroBal : Chain where
  tsResp := fun _ _ => RpcResp.ok 9
  sharesResp := fun _ _ => RpcResp.ok 0
  withdrawResp := fun _ _ _ => RpcResp.ok 50

lemma get_block_timestamp_go_congr (r₁ r₂ : ℕ → RpcResp Int) :
    ∀ (fuel attempt : ℕ),
      (∀ n, attempt ≤ n → n < attempt + fuel → r₁ n = r₂ n) →
      get_block_timestamp_go r₁ attempt fuel = get_block_timestamp_go r₂ attempt fuel := by
  intro fuel
  induction fuel with
  | zero => intro attempt _; rfl
  | succ fuel ih =>
    intro attempt h
    have h0 : r₁ attempt = r₂ attempt := h attempt le_rfl (by omega)
    have hrec := ih (attempt+1) (fun n hn1 hn2 => h n (by omega) (by omega))
    simp only [get_block_timestamp_go, h0, hrec]

lemma contract_call_go_congr (r₁ r₂ : ℕ → RpcResp Int) :
    ∀ (fuel attempt : ℕ),
      (∀ n, attempt ≤ n → n < attempt + fuel → r₁ n = r₂ n) →
      contract_call_go r₁ attempt fuel = contract_call_go r₂ attempt fuel := by
  intro fuel
  induction fuel with
  | zero => intro attempt _; rfl
  | succ fuel ih =>
    intro attempt h
    have h0 : r₁ attempt = r₂ attempt := h attempt le_rfl (by omega)
    have hrec := ih (attempt+1) (fun n hn1 hn2 => h n (by omega) (by omega))
    simp only [contract_call_go, h0, hrec]

/-- C10: get_web3_error_code is total and returns the code attribute
when the error has one, and none otherwise; the json-loads fallback
never yields a code because both json.loads and the subscript raise on
an exception object. -/
theorem c10_get_web3_error_code_total (e : RpcError) :
    get_web3_error_code e = e.code := by
  cases h : e.code <;> simp [get_web3_error_code, h, json_loads_exc]

/-- C2: when the oldest sampled value is 0 the report guard fails and no
division is evaluated; when the elapsed time is 0 (head timestamp equal
to the oldest sampled timestamp) and the guard passes, the computation
raises ZeroDivisionError explicitly instead of yielding a number. -/
theorem c2_division_guard (d : ℚ) (cts : Int) (s : WalkState) :
    (s.oldest_parsed_value = 0 → computeReport d cts s = none) ∧
    (0 < s.oldest_parsed_value → 0 < s.oldest_parsed_block_timestamp →
      cts = s.oldest_parsed_block_timestamp →
      computeReport d cts s = some (Except.error ())) := by
  constructor
  · intro h
    simp [computeReport, h]
  · intro h1 h2 h3
    have hg : s.oldest_parsed_value > 0 ∧ s.oldest_parsed_block_timestamp > 0 := ⟨h1, h2⟩
    rw [computeReport, if_pos hg]
    subst h3
    by_cases hd : d = 0 <;>
      simp [pyDiv, Bind.bind, Except.bind, hd, Int.sub_self, h1.ne.symm]

/-- C2 witness: concrete degenerate inputs for both conjuncts. -/
theorem c2_witness :
    computeReport 1 10 ⟨5, 0, 7⟩ = none ∧
    computeReport 1 7 ⟨9, 4, 7⟩ = some (Except.error ()) :=
  ⟨(c2_division_guard 1 10 ⟨5, 0, 7⟩).1 rfl,
   (c2_division_guard 1 7 ⟨9, 4, 7⟩).2 (by decide) (by decide) rfl⟩

/-- C8: a decode failure on any reached attempt makes the contract-call
helpers return 0 on that attempt, with no further retries and no
sleeps. -/
theorem c8_decode_failure_zero (resps : ℕ → RpcResp Int) (e : RpcError)
    (ht : e.tooManyRequests = false) (hdf : e.decodeFail = true) :
    (∀ attempt fuel, resps attempt = RpcResp.err e →
      contract_call_go resps attempt (fuel+1) = (0, [])) ∧
    (resps 1 = RpcResp.err e →
      get_shares_balance resps = (0, []) ∧ get_withdraw_amount resps = (0, [])) := by
  have key : ∀ attempt fuel, resps attempt = RpcResp.err e →
      contract_call_go resps attempt (fuel+1) = (0, []) := by
    intro attempt fuel h
    simp [contract_call_go, h, ht, hdf]
  exact ⟨key, fun h1 => ⟨key 1 2 h1, key 1 2 h1⟩⟩

/-- C8 witness: a decode-failure oracle makes both helpers return 0 with
no sleeps. -/
theorem c8_witness :
    get_shares_balance respsDecodeFail = (0, []) ∧
    get_withdraw_amount respsDecodeFail = (0, []) :=
  (c8_decode_failure_zero respsDecodeFail ⟨false, true, none⟩ rfl rfl).2 rfl

/-- C3: the retry helpers inspect no attempt beyond the third; a
rate-limited attempt n sleeps n*30 + QUERY_COOLDOWN and goes on to
attempt n+1; and when attempts 1 and 2 are rate-limited and attempt 3
succeeds with v, each helper sleeps exactly twice with strictly
increasing durations and returns v. -/
theorem c3_retry_backoff
    (r₁ r₂ : ℕ → RpcResp Int) (h12 : ∀ n, 1 ≤ n → n ≤ 3 → r₁ n = r₂ n)
    (resps : ℕ → RpcResp Int) (e₁ e₂ : RpcError) (v : Int)
    (h1 : resps 1 = RpcResp.err e₁) (h1t : e₁.tooManyRequests = true)
    (h2 : resps 2 = RpcResp.err e₂) (h2t : e₂.tooManyRequests = true)
    (h3 : resps 3 = RpcResp.ok v) :
    (get_block_timestamp r₁ = get_block_timestamp r₂ ∧
      get_shares_balance r₁ = get_shares_balance r₂ ∧
      get_withdraw_amount r₁ = get_withdraw_amount r₂) ∧
    (∀ (rr : ℕ → RpcResp Int) (attempt fuel : ℕ) (e : RpcError),
      rr attempt = RpcResp.err e → e.tooManyRequests = true →
      get_block_timestamp_go rr attempt (fuel+1) =
        ((get_block_timestamp_go rr (attempt+1) fuel).1,
         ((attempt : ℚ)*30 + QUERY_COOLDOWN) ::
           (get_block_timestamp_go rr (attempt+1) fuel).2) ∧
      contract_call_go rr attempt (fuel+1) =
        ((contract_call_go rr (attempt+1) fuel).1,
         ((attempt : ℚ)*30 + QUERY_COOLDOWN) ::
           (contract_call_go rr (attempt+1) fuel).2)) ∧
    (get_block_timestamp resps =
        (v, [(1 : ℚ)*30 + QUERY_COOLDOWN, (2 : ℚ)*30 + QUERY_COOLDOWN]) ∧
     get_shares_balance resps =
        (v, [(1 : ℚ)*30 + QUERY_COOLDOWN, (2 : ℚ)*30 + QUERY_COOLDOWN]) ∧
     get_withdraw_amount resps =
        (v, [(1 : ℚ)*30 + QUERY_COOLDOWN, (2 : ℚ)*30 + QUERY_COOLDOWN]) ∧
     (1 : ℚ)*30 + QUERY_COOLDOWN < (2 : ℚ)*30 + QUERY_COOLDOWN) := by
  have hrange : ∀ n, 1 ≤ n → n < 1 + 3 → r₁ n = r₂ n := by
    intro n hn1 hn2
    exact h12 n hn1 (by omega)
  refine ⟨⟨?_, ?_, ?_⟩, ?_, ?_⟩
  · exact get_block_timestamp_go_congr r₁ r₂ 3 1 hrange
  · exact contract_call_go_congr r₁ r₂ 3 1 hrange
  · exact contract_call_go_congr r₁ r₂ 3 1 hrange
  · intro rr attempt fuel e he het
    constructor
    · simp only [get_block_timestamp_go, he, het, if_true]
    · simp only [contract_call_go, he, het, if_true]
  · refine ⟨?_, ?_, ?_, ?_⟩
    · simp [get_block_timestamp, get_block_timestamp_go, h1, h2, h3, h1t, h2t]
    · simp [get_shares_balance, contract_call_go, h1, h2, h3, h1t, h2t]
    · simp [get_withdraw_amount, contract_call_go, h1, h2, h3, h1t, h2t]
    · norm_num [QUERY_COOLDOWN]

/-- C3 witness: the rate-limited oracle instantiating the scenario. -/
theorem c3_witness :
    get_shares_balance respsRateLimited =
      (7, [(1 : ℚ)*30 + QUERY_COOLDOWN, (2 : ℚ)*30 + QUERY_COOLDOWN]) ∧
    (1 : ℚ)*30 + QUERY_COOLDOWN < (2 : ℚ)*30 + QUERY_COOLDOWN := by
  have h := c3_retry_backoff respsRateLimited respsRateLimited
    (fun n _ _ => rfl) respsRateLimited ⟨true, false, none⟩ ⟨true, false, none⟩ 7
    rfl rfl rfl rfl rfl
  exact ⟨h.2.2.2.1, h.2.2.2.2.2⟩

/-- C4: a pruned-state error code (-32000 or -32603, neither rate limit
nor decode failure) makes the contract-call helpers return the sentinel
-1 at once with no further attempts; and a -1 result from either fetch
makes the walk print the no-data note, record no sample, and stop. -/
theorem c4_pruned_state_stops
    (resps : ℕ → RpcResp Int) (e : RpcError)
    (ht : e.tooManyRequests = false) (hdf : e.decodeFail = false)
    (hc : e.code = some (-32000) ∨ e.code = some (-32603))
    (ch : Chain) (dep : Int) (dv : ℚ) (cts : Int) (fuel b : ℕ) (s : WalkState)
    (hb : b ≠ 0) :
    (∀ attempt fuel2, resps attempt = RpcResp.err e →
      contract_call_go resps attempt (fuel2+1) = (-1, [])) ∧
    (resps 1 = RpcResp.err e →
      get_shares_balance resps = (-1, []) ∧ get_withdraw_amount resps = (-1, [])) ∧
    ((get_shares_balance (ch.sharesResp b)).1 = -1 →
      walkLoop ch dep dv cts (fuel+1) b s = ([Ev.noData b], s)) ∧
    (0 < (get_shares_balance (ch.sharesResp b)).1 →
      (get_withdraw_amount
          (ch.withdrawResp b (get_shares_balance (ch.sharesResp b)).1)).1 = -1 →
      walkLoop ch dep dv cts (fuel+1) b s = ([Ev.noData b], s)) := by
  have key : ∀ attempt fuel2, resps attempt = RpcResp.err e →
      contract_call_go resps attempt (fuel2+1) = (-1, []) := by
    intro attempt fuel2 h
    rcases hc with hc | hc <;>
      simp [contract_call_go, h, ht, hdf, get_web3_error_code, hc]
  refine ⟨key, fun h1 => ⟨key 1 2 h1, key 1 2 h1⟩, ?_, ?_⟩
  · intro hsb
    obtain ⟨m, rfl⟩ : ∃ m, b = m + 1 := ⟨b - 1, by omega⟩
    simp [walkLoop, MAX_DAYS_TO_PARSE, hsb]
  · intro hsb hwa
    obtain ⟨m, rfl⟩ : ∃ m, b = m + 1 := ⟨b - 1, by omega⟩
    simp [walkLoop, MAX_DAYS_TO_PARSE, hwa, not_le.mpr hsb]

/-- C4 witness: the pruned-state oracle and chain instantiating both the
helper sentinel and the walk stop. -/
theorem c4_witness :
    get_shares_balance respsPruned = (-1, []) ∧
    walkLoop chainPruned 0 1 9 3 7200 ⟨0, 0, 0⟩ = ([Ev.noData 7200], ⟨0, 0, 0⟩) := by
  have h := c4_pruned_state_stops respsPruned ⟨false, false, some (-32000)⟩
    rfl rfl (Or.inl rfl) chainPruned 0 1 9 2 7200 ⟨0, 0, 0⟩ (by decide)
  exact ⟨(h.2.1 rfl).1, h.2.2.1 rfl⟩

/-- C6: a zero or negative fetched amount that is not the -1 sentinel
makes the walk stop silently, with no sample line and no no-data
note. -/
theorem c6_silent_stop
    (ch : Chain) (dep : Int) (dv : ℚ) (cts : Int) (fuel b : ℕ) (s : WalkState)
    (hb : b ≠ 0) :
    ((get_shares_balance (ch.sharesResp b)).1 ≤ 0 →
      (get_shares_balance (ch.sharesResp b)).1 ≠ -1 →
      walkLoop ch dep dv cts (fuel+1) b s = ([], s)) ∧
    (0 < (get_shares_balance (ch.sharesResp b)).1 →
      (get_withdraw_amount
          (ch.withdrawResp b (get_shares_balance (ch.sharesResp b)).1)).1 ≤ 0 →
      (get_withdraw_amount
          (ch.withdrawResp b (get_shares_balance (ch.sharesResp b)).1)).1 ≠ -1 →
      walkLoop ch dep dv cts (fuel+1) b s = ([], s)) := by
  obtain ⟨m, rfl⟩ : ∃ m, b = m + 1 := ⟨b - 1, by omega⟩
  constructor
  · intro hle hne
    simp [walkLoop, MAX_DAYS_TO_PARSE, hle, hne]
  · intro hpos hle hne
    simp [walkLoop, MAX_DAYS_TO_PARSE, not_le.mpr hpos, hle, hne]

/-- C6 witness: a legitimate zero balance stops the walk with no
output. -/
theorem c6_witness :
    walkLoop chainZeroBal 0 1 9 3 7200 ⟨0, 0, 0⟩ = ([], ⟨0, 0, 0⟩) :=
  (c6_silent_stop chainZeroBal 0 1 9 2 7200 ⟨0, 0, 0⟩ (by decide)).1 (by decide) (by decide)

lemma walkLoop_succ_cases (ch : Chain) (dep : Int) (dv : ℚ) (cts : Int)
    (fuel m : ℕ) (s : WalkState) :
    walkLoop ch dep dv cts (fuel+1) (m+1) s = ([], s) ∨
    walkLoop ch dep dv cts (fuel+1) (m+1) s = ([Ev.noData (m+1)], s) ∨
    (∃ ts sb wa, 0 < sb ∧ 0 < wa ∧
      walkLoop ch dep dv cts (fuel+1) (m+1) s =
        (Ev.sample (m+1) ts sb wa ((sb : ℚ) / 10^18) ((wa : ℚ) / dv)
            (if s.current_value = 0 then 0
             else ((wa - s.current_value : Int) : ℚ) / dv)
            (((wa - dep : Int) : ℚ) / dv) ::
          (walkLoop ch dep dv cts fuel (m+1-blocks_per_day)
            ⟨if s.current_value = 0 then wa else s.current_value, wa, ts⟩).1,
         (walkLoop ch dep dv cts fuel (m+1-blocks_per_day)
            ⟨if s.current_value = 0 then wa else s.current_value, wa, ts⟩).2)) := by
  by_cases h1 : (get_shares_balance (ch.sharesResp (m+1))).1 ≤ 0
  · by_cases h2 : (get_shares_balance (ch.sharesResp (m+1))).1 = -1
    · exact Or.inr (Or.inl (by simp [walkLoop, MAX_DAYS_TO_PARSE, h1, h2]))
    · exact Or.inl (by simp [walkLoop, MAX_DAYS_TO_PARSE, h1, h2])
  · by_cases h3 : (get_withdraw_amount
        (ch.withdrawResp (m+1) (get_shares_balance (ch.sharesResp (m+1))).1)).1 ≤ 0
    · by_cases h4 : (get_withdraw_amount
          (ch.withdrawResp (m+1) (get_shares_balance (ch.sharesResp (m+1))).1)).1 = -1
      · exact Or.inr (Or.inl (by simp [walkLoop, MAX_DAYS_TO_PARSE, h1, h3, h4]))
      · exact Or.inl (by simp [walkLoop, MAX_DAYS_TO_PARSE, h1, h3, h4])
    · refine Or.inr (Or.inr ⟨(get_block_timestamp (ch.tsResp (m+1))).1,
        (get_shares_balance (ch.sharesResp (m+1))).1,
        (get_withdraw_amount
          (ch.withdrawResp (m+1) (get_shares_balance (ch.sharesResp (m+1))).1)).1,
        by omega, by omega, ?_⟩)
      simp [walkLoop, MAX_DAYS_TO_PARSE, h1, h3]

lemma walkLoop_no_sample (ch : Chain) (dep : Int) (dv : ℚ) (cts : Int) :
    ∀ (fuel b : ℕ) (s : WalkState),
      (∀ e ∈ (walkLoop ch dep dv cts fuel b s).1, e.isSample = false) →
      (walkLoop ch dep dv cts fuel b s).2 = s := by
  intro fuel
  induction fuel with
  | zero => intro b s _; rfl
  | succ fuel ih =>
    intro b s h
    cases b with
    | zero => rfl
    | succ m =>
      rcases walkLoop_succ_cases ch dep dv cts fuel m s with hc | hc |
        ⟨ts, sb, wa, hsb, hwa, hc⟩
      · rw [hc]
      · rw [hc]
      · rw [hc] at h
        have := h _ (List.mem_cons_self _ _)
        simp [Ev.isSample] at this

lemma walkLoop_sample_pos (ch : Chain) (dep : Int) (dv : ℚ) (cts : Int) :
    ∀ (fuel b : ℕ) (s : WalkState),
      (∃ e ∈ (walkLoop ch dep dv cts fuel b s).1, e.isSample = true) →
      0 < (walkLoop ch dep dv cts fuel b s).2.oldest_parsed_value := by
  intro fuel
  induction fuel with
  | zero =>
    intro b s h
    simp [walkLoop] at h
  | succ fuel ih =>
    intro b s h
    cases b with
    | zero => simp [walkLoop] at h
    | succ m =>
      rcases walkLoop_succ_cases ch dep dv cts fuel m s with hc | hc |
        ⟨ts, sb, wa, hsb, hwa, hc⟩
      · rw [hc] at h
        simp at h
      · rw [hc] at h
        simp [Ev.isSample] at h
      · rw [hc]
        by_cases htail : ∃ e ∈ (walkLoop ch dep dv cts fuel (m+1-blocks_per_day)
            ⟨if s.current_value = 0 then wa else s.current_value, wa, ts⟩).1,
            e.isSample = true
        · exact ih _ _ htail
        · push_neg at htail
          have hst := walkLoop_no_sample ch dep dv cts fuel (m+1-blocks_per_day)
            ⟨if s.current_value = 0 then wa else s.current_value, wa, ts⟩
            (fun e he => by simpa using htail e he)
          simpa [hst] using hwa

lemma walkLoop_cv_diffCur (ch : Chain) (dep : Int) (dv : ℚ) (cts : Int) :
    ∀ (fuel b : ℕ) (s : WalkState), s.current_value ≠ 0 →
      (walkLoop ch dep dv cts fuel b s).2.current_value = s.current_value ∧
      ∀ e ∈ (walkLoop ch dep dv cts fuel b s).1, e.isSample = true →
        e.diffCur = ((e.wa - s.current_value : Int) : ℚ) / dv := by
  intro fuel
  induction fuel with
  | zero =>
    intro b s hcv
    exact ⟨rfl, by simp [walkLoop]⟩
  | succ fuel ih =>
    intro b s hcv
    cases b with
    | zero => exact ⟨rfl, by simp [walkLoop]⟩
    | succ m =>
      rcases walkLoop_succ_cases ch dep dv cts fuel m s with hc | hc |
        ⟨ts, sb, wa, hsb, hwa, hc⟩
      · rw [hc]
        exact ⟨rfl, by simp⟩
      · rw [hc]
        refine ⟨rfl, ?_⟩
        intro e he hs
        simp at he
        subst he
        simp [Ev.isSample] at hs
      · simp only [if_neg hcv] at hc
        rw [hc]
        have hih := ih (m+1-blocks_per_day) ⟨s.current_value, wa, ts⟩ hcv
        refine ⟨hih.1, ?_⟩
        intro e he hs
        rcases List.mem_cons.mp he with rfl | he2
        · simp [Ev.diffCur, Ev.wa]
        · exact hih.2 e he2 hs

lemma walkLoop_display (ch : Chain) (dep : Int) (dv : ℚ) (cts : Int) :
    ∀ (fuel b : ℕ) (s : WalkState),
      ∀ e ∈ (walkLoop ch dep dv cts fuel b s).1, e.isSample = true →
        e.sbF = (e.sb : ℚ) / 10^18 ∧ e.waF = (e.wa : ℚ) / dv ∧
        e.diffDep = ((e.wa - dep : Int) : ℚ) / dv := by
  intro fuel
  induction fuel with
  | zero =>
    intro b s e he
    simp [walkLoop] at he
  | succ fuel ih =>
    intro b s e he
    cases b with
    | zero => simp [walkLoop] at he
    | succ m =>
      rcases walkLoop_succ_cases ch dep dv cts fuel m s with hc | hc |
        ⟨ts, sb, wa, hsb, hwa, hc⟩
      · rw [hc] at he
        simp at he
      · rw [hc] at he
        intro hs
        simp at he
        subst he
        simp [Ev.isSample] at hs
      · rw [hc] at he
        intro hs
        rcases List.mem_cons.mp he with rfl | he2
        · simp [Ev.sbF, Ev.sb, Ev.waF, Ev.wa, Ev.diffDep]
        · exact ih _ _ e he2 hs

lemma walkLoop_divisor_raw (ch : Chain) (dep : Int) (cts : Int) :
    ∀ (fuel b : ℕ) (s : WalkState) (d₁ d₂ : ℚ),
      ((walkLoop ch dep d₁ cts fuel b s).1.map Ev.raw,
        (walkLoop ch dep d₁ cts fuel b s).2) =
      ((walkLoop ch dep d₂ cts fuel b s).1.map Ev.raw,
        (walkLoop ch dep d₂ cts fuel b s).2) := by
  intro fuel
  induction fuel with
  | zero => intro b s d₁ d₂; rfl
  | succ fuel ih =>
    intro b s d₁ d₂
    cases b with
    | zero => rfl
    | succ m =>
      have hih := ih (m+1-blocks_per_day)
      simp only [walkLoop, MAX_DAYS_TO_PARSE]
      split_ifs with hA hB hC hD hE <;>
        simp_all [Ev.raw, Prod.ext_iff] <;>
        exact hih _ d₁ d₂

lemma walkFrom_deltas (ch : Chain) (dep : Int) (dv : ℚ) (cts : Int) (cb : ℕ)
    (e0 : Ev) (tl : List Ev)
    (h : (walkFrom ch dep dv cts cb).1 = e0 :: tl) (hs : e0.isSample = true) :
    e0.diffCur = 0 ∧ e0.diffDep = ((e0.wa - dep : Int) : ℚ) / dv ∧
    ∀ e ∈ tl, e.isSample = true →
      e.diffCur = ((e.wa - e0.wa : Int) : ℚ) / dv ∧
      e.diffDep = ((e.wa - dep : Int) : ℚ) / dv := by
  cases cb with
  | zero =>
    have h0 : walkFrom ch dep dv cts 0 = ([], ⟨0, 0, 0⟩) := rfl
    rw [h0] at h
    cases h
  | succ m =>
    have hF : walkFrom ch dep dv cts (m+1) =
        walkLoop ch dep dv cts ((m+1)/blocks_per_day + 1 + 1) (m+1) ⟨0, 0, 0⟩ := rfl
    rw [hF] at h
    rcases walkLoop_succ_cases ch dep dv cts ((m+1)/blocks_per_day + 1) m ⟨0, 0, 0⟩
      with hc | hc | ⟨ts, sb, wa, hsb, hwa, hc⟩
    · rw [hc] at h
      cases h
    · rw [hc] at h
      obtain ⟨he0, htl⟩ := List.cons.inj h
      rw [← he0] at hs
      simp [Ev.isSample] at hs
    · simp only [show (⟨0, 0, 0⟩ : WalkState).current_value = 0 from rfl,
        if_pos] at hc
      rw [hc] at h
      obtain ⟨he0, htl⟩ := List.cons.inj h
      subst he0
      subst htl
      refine ⟨rfl, rfl, ?_⟩
      intro e he hes
      have hcv := walkLoop_cv_diffCur ch dep dv cts ((m+1)/blocks_per_day + 1)
        (m+1-blocks_per_day) ⟨wa, wa, ts⟩ hwa.ne'
      have hdisp := walkLoop_display ch dep dv cts ((m+1)/blocks_per_day + 1)
        (m+1-blocks_per_day) ⟨wa, wa, ts⟩ e he hes
      exact ⟨hcv.2 e he hes, hdisp.2.2⟩

lemma computeReport_cases (d : ℚ) (cts : Int) (s : WalkState) :
    (¬(0 < s.oldest_parsed_value ∧ 0 < s.oldest_parsed_block_timestamp) ∧
      computeReport d cts s = none) ∨
    ((0 < s.oldest_parsed_value ∧ 0 < s.oldest_parsed_block_timestamp) ∧
      (d = 0 ∨ (s.oldest_parsed_value : ℚ) = 0 ∨
        ((cts : ℚ) - (s.oldest_parsed_block_timestamp : ℚ)) / (24*60*60) = 0) ∧
      computeReport d cts s = some (Except.error ())) ∨
    ((0 < s.oldest_parsed_value ∧ 0 < s.oldest_parsed_block_timestamp) ∧
      d ≠ 0 ∧ (s.oldest_parsed_value : ℚ) ≠ 0 ∧
      ((cts : ℚ) - (s.oldest_parsed_block_timestamp : ℚ)) / (24*60*60) ≠ 0 ∧
      computeReport d cts s = some (Except.ok
        ⟨s.current_value - s.oldest_parsed_value,
         ((s.current_value : ℚ) - (s.oldest_parsed_value : ℚ)) / d,
         ((cts : ℚ) - (s.oldest_parsed_block_timestamp : ℚ)) / (24*60*60),
         ((s.current_value : ℚ) - (s.oldest_parsed_value : ℚ)) /
             (s.oldest_parsed_value : ℚ) /
             (((cts : ℚ) - (s.oldest_parsed_block_timestamp : ℚ)) / (24*60*60)) *
             365⟩)) := by
  by_cases hg : 0 < s.oldest_parsed_value ∧ 0 < s.oldest_parsed_block_timestamp
  · by_cases hd : d = 0
    · refine Or.inr (Or.inl ⟨hg, Or.inl hd, ?_⟩)
      simp [computeReport, hg, pyDiv, Bind.bind, Except.bind, hd]
    · by_cases hov : (s.oldest_parsed_value : ℚ) = 0
      · refine Or.inr (Or.inl ⟨hg, Or.inr (Or.inl hov), ?_⟩)
        simp [computeReport, hg, pyDiv, Bind.bind, Except.bind, hd, hov]
      · by_cases hdays :
            ((cts : ℚ) - (s.oldest_parsed_block_timestamp : ℚ)) / (24*60*60) = 0
        · refine Or.inr (Or.inl ⟨hg, Or.inr (Or.inr hdays), ?_⟩)
          simp [computeReport, hg, pyDiv, Bind.bind, Except.bind, hd, hov, hdays]
        · refine Or.inr (Or.inr ⟨hg, hd, hov, hdays, ?_⟩)
          simp [computeReport, hg, pyDiv, Bind.bind, Except.bind, hd, hov, hdays]
  · exact Or.inl ⟨hg, by simp [computeReport, hg]⟩

/-- C9: the walk's control flow, raw event content and final state do
not depend on the divisor; every displayed quantity of a sample line is
a raw integer quantity (or raw integer difference) divided by the
relevant divisor — including the delta vs current, which is the raw
difference withdraw_amount - current_value over the divisor, with the
current value frozen at the first sample (which prints 0) — and the
report's gain is the raw integer difference current_value -
oldest_parsed_value, divided by the divisor only for its displayed
form. -/
theorem c9_raw_units (ch : Chain) (dep : Int) (cts : Int) (fuel b cb : ℕ)
    (s : WalkState) (d d₁ d₂ : ℚ) :
    ((walkLoop ch dep d₁ cts fuel b s).1.map Ev.raw =
       (walkLoop ch dep d₂ cts fuel b s).1.map Ev.raw ∧
     (walkLoop ch dep d₁ cts fuel b s).2 = (walkLoop ch dep d₂ cts fuel b s).2) ∧
    (∀ e ∈ (walkLoop ch dep d cts fuel b s).1, e.isSample = true →
      e.sbF = (e.sb : ℚ) / 10^18 ∧ e.waF = (e.wa : ℚ) / d ∧
      e.diffDep = ((e.wa - dep : Int) : ℚ) / d) ∧
    (∀ e ∈ (walkLoop ch dep d cts fuel b s).1, e.isSample = true →
      s.current_value ≠ 0 →
      e.diffCur = ((e.wa - s.current_value : Int) : ℚ) / d) ∧
    (∀ (e0 : Ev) (tl : List Ev),
      (walkFrom ch dep d cts cb).1 = e0 :: tl → e0.isSample = true →
      e0.diffCur = 0 ∧
      ∀ e ∈ tl, e.isSample = true →
        e.diffCur = ((e.wa - e0.wa : Int) : ℚ) / d) ∧
    (∀ r : Report, computeReport d cts s = some (Except.ok r) →
      r.parsed_gain = s.current_value - s.oldest_parsed_value ∧
      r.parsed_gain_f = (r.parsed_gain : ℚ) / d) := by
  refine ⟨?_, walkLoop_display ch dep d cts fuel b s, ?_, ?_, ?_⟩
  · have h := walkLoop_divisor_raw ch dep cts fuel b s d₁ d₂
    exact Prod.ext_iff.mp h
  · intro e he hes hcv
    exact (walkLoop_cv_diffCur ch dep d cts fuel b s hcv).2 e he hes
  · intro e0 tl h hs
    obtain ⟨h1, _, h3⟩ := walkFrom_deltas ch dep d cts cb e0 tl h hs
    exact ⟨h1, fun e he hes => (h3 e he hes).1⟩
  · intro r hr
    rcases computeReport_cases d cts s with ⟨_, hnone⟩ | ⟨_, _, herr⟩ |
      ⟨_, _, _, _, hok⟩
    · rw [hnone] at hr
      cases hr
    · rw [herr] at hr
      simp at hr
    · rw [hok] at hr
      simp only [Option.some.injEq, Except.ok.injEq] at hr
      subst hr
      refine ⟨rfl, ?_⟩
      show ((s.current_value : ℚ) - (s.oldest_parsed_value : ℚ)) / d =
        ((s.current_value - s.oldest_parsed_value : Int) : ℚ) / d
      push_cast
      rfl

/-- C9 witness: displayed quantities of concrete samples with divisor 2,
including the delta vs a nonzero current value 7 and the first sample
printing 0. -/
theorem c9_witness :
    (Ev.sample 7200 9 5 50 (5/10^18) 25 (43/2) 25).waF =
      ((Ev.sample 7200 9 5 50 (5/10^18) 25 (43/2) 25).wa : ℚ) / 2 ∧
    (Ev.sample 7200 9 5 50 (5/10^18) 25 (43/2) 25).diffDep =
      (((Ev.sample 7200 9 5 50 (5/10^18) 25 (43/2) 25).wa - 0 : Int) : ℚ) / 2 ∧
    (Ev.sample 7200 9 5 50 (5/10^18) 25 (43/2) 25).diffCur =
      (((Ev.sample 7200 9 5 50 (5/10^18) 25 (43/2) 25).wa - 7 : Int) : ℚ) / 2 ∧
    (Ev.sample 7200 9 5 50 (5/10^18) 25 0 25).diffCur = 0 := by
  have hevs : (walkLoop chainGood 0 2 9 1 7200 ⟨7, 0, 0⟩).1 =
      [Ev.sample 7200 9 5 50 (5/10^18) 25 (43/2) 25] := by
    norm_num [walkLoop, chainGood, get_shares_balance, get_withdraw_amount,
      contract_call_go, get_block_timestamp, get_block_timestamp_go,
      MAX_DAYS_TO_PARSE]
  have hevs0 : (walkFrom chainGood 0 2 9 7200).1 =
      [Ev.sample 7200 9 5 50 (5/10^18) 25 0 25] := by
    norm_num [walkFrom, walkLoop, chainGood, get_shares_balance,
      get_withdraw_amount, contract_call_go, get_block_timestamp,
      get_block_timestamp_go, blocks_per_day, MAX_DAYS_TO_PARSE]
  have h := c9_raw_units chainGood 0 9 1 7200 7200 ⟨7, 0, 0⟩ 2 2 3
  have hdisp := h.2.1 (Ev.sample 7200 9 5 50 (5/10^18) 25 (43/2) 25)
    (by rw [hevs]; simp) rfl
  have hdc := h.2.2.1 (Ev.sample 7200 9 5 50 (5/10^18) 25 (43/2) 25)
    (by rw [hevs]; simp) rfl (by decide)
  have hhead := h.2.2.2.1 (Ev.sample 7200 9 5 50 (5/10^18) 25 0 25) [] hevs0 rfl
  exact ⟨hdisp.2.1, hdisp.2.2, hdc, hhead.1⟩

/-- C7 (amended): after a depositor walk the report is computed when at
least one sample was recorded and the oldest sample's recorded block
timestamp is positive; when that timestamp is not positive (in
particular 0 from a failed timestamp fetch) the report is skipped even
though sample lines were printed. -/
theorem c7_report_guard (ch : Chain) (dep : Int) (dv : ℚ) (cts : Int) (cb : ℕ) :
    ((∃ e ∈ (walkFrom ch dep dv cts cb).1, e.isSample = true) →
      0 < (walkFrom ch dep dv cts cb).2.oldest_parsed_block_timestamp →
      ∃ rep, computeReport dv cts (walkFrom ch dep dv cts cb).2 = some rep) ∧
    ((walkFrom ch dep dv cts cb).2.oldest_parsed_block_timestamp ≤ 0 →
      computeReport dv cts (walkFrom ch dep dv cts cb).2 = none) := by
  constructor
  · intro hs hts
    have hov : 0 < (walkFrom ch dep dv cts cb).2.oldest_parsed_value :=
      walkLoop_sample_pos ch dep dv cts _ _ _ hs
    rw [computeReport, if_pos ⟨hov, hts⟩]
    exact ⟨_, rfl⟩
  · intro hts
    rw [computeReport, if_neg]
    intro hg
    exact absurd hg.2 (not_lt.mpr hts)

/-- C7 witness: a successful one-sample walk with a positive oldest
timestamp does produce a report. -/
theorem c7_witness :
    ∃ rep, computeReport 1 10 (walkFrom chainGood 0 1 10 7200).2 = some rep := by
  refine (c7_report_guard chainGood 0 1 10 7200).1 ?_ ?_
  · have hevs : (walkFrom chainGood 0 1 10 7200).1 =
        [Ev.sample 7200 9 5 50 (5/10^18) 50 0 50] := by
      norm_num [walkFrom, walkLoop, chainGood, get_shares_balance,
        get_withdraw_amount, contract_call_go, get_block_timestamp,
        get_block_timestamp_go, blocks_per_day, MAX_DAYS_TO_PARSE]
    rw [hevs]
    exact ⟨Ev.sample 7200 9 5 50 (5/10^18) 50 0 50, by simp, rfl⟩
  · have hst : (walkFrom chainGood 0 1 10 7200).2 = ⟨50, 50, 9⟩ := by
      norm_num [walkFrom, walkLoop, chainGood, get_shares_balance,
        get_withdraw_amount, contract_call_go, get_block_timestamp,
        get_block_timestamp_go, blocks_per_day, MAX_DAYS_TO_PARSE]
    rw [hst]
    decide

/-- C1: the completed-walk report computes gain = current value minus
oldest value in raw units (divided by the divisor only for display),
elapsed days = (head timestamp minus oldest sampled timestamp)/86400,
and annualized return = gain/oldest/elapsed*365; and the three-sample
walk with values 100, 90, 80 at timestamps T, T-S, T-2S and divisor 1
yields gain 20, elapsed days 2S/86400 and APR 20/80/(2S/86400)*365. -/
theorem c1_report_formula (d : ℚ) (cts : Int) (s : WalkState)
    (hd : d ≠ 0) (h1 : 0 < s.oldest_parsed_value)
    (h2 : 0 < s.oldest_parsed_block_timestamp)
    (h3 : cts ≠ s.oldest_parsed_block_timestamp)
    (T S : Int) (hS : 0 < S) (hT : 2*S < T) :
    computeReport d cts s = some (Except.ok
      ⟨s.current_value - s.oldest_parsed_value,
       ((s.current_value : ℚ) - (s.oldest_parsed_value : ℚ)) / d,
       ((cts : ℚ) - (s.oldest_parsed_block_timestamp : ℚ)) / 86400,
       ((s.current_value : ℚ) - (s.oldest_parsed_value : ℚ)) /
           (s.oldest_parsed_value : ℚ) /
           (((cts : ℚ) - (s.oldest_parsed_block_timestamp : ℚ)) / 86400) *
           365⟩) ∧
    ((runDepositor (chain3 T S) 50 1 21600 T).1.map Ev.raw =
       [(true, 21600, T, 1, 100), (true, 14400, T - S, 1, 90),
        (true, 7200, T - 2*S, 1, 80)] ∧
     (runDepositor (chain3 T S) 50 1 21600 T).2 = some (Except.ok
       ⟨20, 20, (2*(S : ℚ)) / 86400,
        (20 : ℚ) / 80 / (2*(S : ℚ) / 86400) * 365⟩)) := by
  have hovq : (s.oldest_parsed_value : ℚ) ≠ 0 := Int.cast_ne_zero.mpr h1.ne'
  have hdaysq :
      ((cts : ℚ) - (s.oldest_parsed_block_timestamp : ℚ)) / (24*60*60) ≠ 0 := by
    apply div_ne_zero
    · rw [sub_ne_zero]
      exact_mod_cast h3
    · norm_num
  refine ⟨?_, ?_, ?_⟩
  · rcases computeReport_cases d cts s with ⟨hng, _⟩ | ⟨_, hbad, _⟩ |
      ⟨_, _, _, _, hok⟩
    · exact absurd ⟨h1, h2⟩ hng
    · rcases hbad with hbad | hbad | hbad
      · exact absurd hbad hd
      · exact absurd hbad hovq
      · exact absurd hbad hdaysq
    · rw [hok]
      norm_num
  · norm_num [runDepositor, walkFrom, walkLoop, chain3, Ev.raw,
      get_shares_balance, get_withdraw_amount, contract_call_go,
      get_block_timestamp, get_block_timestamp_go, blocks_per_day,
      MAX_DAYS_TO_PARSE]
  · have hst : (walkFrom (chain3 T S) 50 1 T 21600).2 = ⟨100, 80, T - 2*S⟩ := by
      norm_num [walkFrom, walkLoop, chain3, get_shares_balance,
        get_withdraw_amount, contract_call_go, get_block_timestamp,
        get_block_timestamp_go, blocks_per_day, MAX_DAYS_TO_PARSE]
    have hts : (0 : Int) < T - 2*S := by omega
    have hdq2 : ((T : ℚ) - ((T - 2*S : Int) : ℚ)) / (24*60*60) ≠ 0 := by
      apply div_ne_zero
      · push_cast
        have : (S : ℚ) ≠ 0 := Int.cast_ne_zero.mpr hS.ne'
        intro hh
        apply this
        linarith
      · norm_num
    show computeReport 1 T (walkFrom (chain3 T S) 50 1 T 21600).2 = _
    rw [hst]
    rcases computeReport_cases 1 T ⟨100, 80, T - 2*S⟩ with ⟨hng, _⟩ |
      ⟨_, hbad, _⟩ | ⟨_, _, _, _, hok⟩
    · exact absurd ⟨by norm_num, hts⟩ hng
    · rcases hbad with hbad | hbad | hbad
      · exact absurd hbad one_ne_zero
      · norm_num at hbad
      · exact absurd hbad hdq2
    · rw [hok]
      push_cast
      norm_num

/-- C1 witness: the report formula at a concrete accumulator and the
end-to-end run at T = 200000, S = 86400. -/
theorem c1_witness :
    computeReport 1 10 ⟨100, 80, 4⟩ = some (Except.ok
      ⟨100 - 80, (((100 : Int) : ℚ) - ((80 : Int) : ℚ)) / 1,
       (((10 : Int) : ℚ) - ((4 : Int) : ℚ)) / 86400,
       (((100 : Int) : ℚ) - ((80 : Int) : ℚ)) / ((80 : Int) : ℚ) /
           ((((10 : Int) : ℚ) - ((4 : Int) : ℚ)) / 86400) * 365⟩) ∧
    (runDepositor (chain3 200000 86400) 50 1 21600 200000).2 = some (Except.ok
      ⟨20, 20, (2*((86400 : Int) : ℚ)) / 86400,
       (20 : ℚ) / 80 / (2*((86400 : Int) : ℚ) / 86400) * 365⟩) := by
  have h := c1_report_formula 1 10 ⟨100, 80, 4⟩ (by norm_num) (by decide)
    (by decide) (by decide) 200000 86400 (by decide) (by decide)
  exact ⟨h.1, h.2.2⟩

/-- C5 (amended): every sample line prints its value minus the deposited
amount and its value minus the current value, where the current value is
the value of the first (most recent) sample of the walk — not the
immediately preceding sample; the first sample prints 0 for the second
delta. -/
theorem c5_deltas (ch : Chain) (dep : Int) (dv : ℚ) (cts : Int) (cb : ℕ)
    (e0 : Ev) (tl : List Ev)
    (h : (walkFrom ch dep dv cts cb).1 = e0 :: tl) (hs : e0.isSample = true) :
    e0.diffCur = 0 ∧ e0.diffDep = ((e0.wa - dep : Int) : ℚ) / dv ∧
    ∀ e ∈ tl, e.isSample = true →
      e.diffCur = ((e.wa - e0.wa : Int) : ℚ) / dv ∧
      e.diffDep = ((e.wa - dep : Int) : ℚ) / dv :=
  walkFrom_deltas ch dep dv cts cb e0 tl h hs

/-- C5 witness: a one-sample walk instantiating the amended delta
statement. -/
theorem c5_witness :
    (Ev.sample 7200 9 5 50 (5/10^18) 50 0 50).diffCur = 0 ∧
    (Ev.sample 7200 9 5 50 (5/10^18) 50 0 50).diffDep =
      (((Ev.sample 7200 9 5 50 (5/10^18) 50 0 50).wa - 0 : Int) : ℚ) / 1 ∧
    ∀ e ∈ ([] : List Ev), e.isSample = true →
      e.diffCur =
        ((e.wa - (Ev.sample 7200 9 5 50 (5/10^18) 50 0 50).wa : Int) : ℚ) / 1 ∧
      e.diffDep = ((e.wa - 0 : Int) : ℚ) / 1 := by
  have hevs : (walkFrom chainGood 0 1 10 7200).1 =
      [Ev.sample 7200 9 5 50 (5/10^18) 50 0 50] := by
    norm_num [walkFrom, walkLoop, chainGood, get_shares_balance,
      get_withdraw_amount, contract_call_go, get_block_timestamp,
      get_block_timestamp_go, blocks_per_day, MAX_DAYS_TO_PARSE]
  exact c5_deltas chainGood 0 1 10 7200 _ [] hevs rfl

/-- C5 counterexample: in a three-sample walk with values 100, 90, 80
the third printed delta vs current is -20, not the -10 that a delta
against the previous (immediately more recent) sample would give. -/
theorem c5_counterexample :
    (runDepositor (chain3 200000 86400) 50 1 21600 200000).1.map Ev.isSample =
      [true, true, true] ∧
    (runDepositor (chain3 200000 86400) 50 1 21600 200000).1.map Ev.wa =
      [100, 90, 80] ∧
    (runDepositor (chain3 200000 86400) 50 1 21600 200000).1.map Ev.diffCur =
      [0, -10, -20] ∧
    ((-20 : ℚ) ≠ ((80 - 90 : Int) : ℚ) / 1) := by
  refine ⟨?_, ?_, ?_, by norm_num⟩ <;>
    norm_num [runDepositor, walkFrom, walkLoop, chain3, Ev.isSample, Ev.wa,
      Ev.diffCur, get_shares_balance, get_withdraw_amount, contract_call_go,
      get_block_timestamp, get_block_timestamp_go, blocks_per_day,
      MAX_DAYS_TO_PARSE]

/-- C7 counterexample: a walk that prints a sample whose timestamp fetch
failed (timestamp 0) produces no report, contradicting the claim that
the report is printed in that case. -/
theorem c7_counterexample :
    (runDepositor chainTsFail 0 1 7200 123).1.any Ev.isSample = true ∧
    (runDepositor chainTsFail 0 1 7200 123).2 = none := by
  constructor <;>
    norm_num [runDepositor, walkFrom, walkLoop, computeReport, chainTsFail,
      get_shares_balance, get_withdraw_amount, contract_call_go,
      get_block_timestamp, get_block_timestamp_go, blocks_per_day,
      MAX_DAYS_TO_PARSE, Ev.isSample]
